import Mathlib

/-!
Shallow embedding of the order/catalog/user backend
(`src/backend/app/api/routes/{orders,products,users}.py` and
`src/backend/app/models/{order,products,user}.py`).

Conventions:
* UUIDs are modelled as `Nat`; the database's `uuid4` generator is modelled
  by a caller-supplied fresh counter.
* Python `datetime` values are pairs (day, microsecond-of-day) compared
  lexicographically; `datetime.date` values are the day number.
* Python `float` prices are modelled as `Int` (no arithmetic is ever
  performed on them by the embedded routes; they are only stored and copied).
* The relational session is a `Store` of entity lists; `session.get(M, id)`
  is `List.find?` on the id, `session.add` of an identity-mapped row is an
  id-preserving `List.map`, and each `session.commit()` appends a snapshot
  of the store to the request's `committed` trace.
* `raise HTTPException` is an `err` result carrying the trace committed so
  far and the store as the database sees it at raise time.
-/

namespace LuEstilo

/-- Python `datetime`: (day number, microsecond of day), ordered lexicographically. -/
structure DateTime where
  day : Nat
  micro : Nat
deriving DecidableEq, Repr

def microsPerDay : Nat := 86400000000

/-- A real `datetime` always has microsecond-of-day below `microsPerDay`. -/
def DateTime.wf (t : DateTime) : Prop := t.micro < microsPerDay

/-- `datetime` comparison `a <= b` (lexicographic, as in Python). -/
def dtLe (a b : DateTime) : Bool :=
  a.day < b.day || (a.day == b.day && a.micro ≤ b.micro)

/-- `datetime.combine(d, datetime.min.time())`: first instant of day `d`. -/
def startOfDay (d : Nat) : DateTime := ⟨d, 0⟩

/-- `datetime.combine(d, datetime.max.time())`: last representable instant of day `d`. -/
def endOfDay (d : Nat) : DateTime := ⟨d, microsPerDay - 1⟩

/-- `Product` table row (`app/models/products.py`).  The model declares
`initial_stock: int = Field(..., ge=0)` — stock is supposed to be non-negative. -/
structure Product where
  id : Nat
  description : String
  sale_price : Int
  barcode : String
  section_ : String
  category : Option String
  initial_stock : Int
  expiration_date : Option Nat
  created_at : DateTime
  updated_at : DateTime
deriving DecidableEq, Repr

structure ProductImage where
  id : Nat
  product_id : Nat
  url : String
deriving DecidableEq, Repr

/-- `Order` table row (`app/models/order.py`). -/
structure Order where
  id : Nat
  client_id : Nat
  order_date : DateTime
  status : String
  updated_at : DateTime
deriving DecidableEq, Repr

/-- `OrderItem` table row (`app/models/order.py`). -/
structure OrderItem where
  id : Nat
  order_id : Nat
  product_id : Nat
  quantity : Int
  unit_price : Int
  section_ : Option String
deriving DecidableEq, Repr

inductive UserRole where
  | ADMIN
  | CLIENT
deriving DecidableEq, Repr

/-- `User` table row (`app/models/user.py`). -/
structure User where
  id : Nat
  email : String
  is_active : Bool
  full_name : Option String
  role : UserRole
  hashed_password : String
deriving DecidableEq, Repr

/-- The Record Store: one list per table. -/
structure Store where
  products : List Product
  product_images : List ProductImage
  orders : List Order
  order_items : List OrderItem
  users : List User
deriving DecidableEq, Repr

/-- `session.get(Product, pid)`. -/
def getProduct (s : Store) (pid : Nat) : Option Product :=
  s.products.find? (fun p => p.id == pid)

/-- `session.get(Order, oid)`. -/
def getOrder (s : Store) (oid : Nat) : Option Order :=
  s.orders.find? (fun o => o.id == oid)

/-- `session.get(User, uid)`. -/
def getUser (s : Store) (uid : Nat) : Option User :=
  s.users.find? (fun u => u.id == uid)

/-- The items belonging to order `oid` (the `Order.items` relationship). -/
def itemsOf (s : Store) (oid : Nat) : List OrderItem :=
  s.order_items.filter (fun i => i.order_id == oid)

/-- Stock of product `pid`, when it exists. -/
def stockOf (s : Store) (pid : Nat) : Option Int :=
  (getProduct s pid).map (fun p => p.initial_stock)

/-- The errors the embedded routes raise (`HTTPException`s, by status/detail). -/
inductive ApiError where
  | notFoundProduct (product_id : Nat)
  | insufficientStock (product_id : Nat)
  | notFoundOrder
  | conflictBarcode
  | incorrectPassword
  | newPasswordEqualsCurrent
  | forbidden
deriving DecidableEq, Repr

/-- Outcome of one request: the snapshots committed by `session.commit()`
(in order), the store as the database holds it after the request, and the
response, or the raised error.  A raise before any commit carries
`committed = []` and the untouched store. -/
inductive RequestResult (ρ : Type) where
  | ok (committed : List Store) (final : Store) (response : ρ)
  | err (e : ApiError) (committed : List Store) (final : Store)
deriving DecidableEq, Repr

def RequestResult.commits {ρ : Type} : RequestResult ρ → List Store
  | .ok committed _ _ => committed
  | .err _ committed _ => committed

def RequestResult.finalStore {ρ : Type} : RequestResult ρ → Store
  | .ok _ final _ => final
  | .err _ _ final => final

/-! ### Order workflow (`app/api/routes/orders.py`) -/

/-- Request body item (`OrderItemCreate`); pydantic validates
`quantity ≥ 1` and `unit_price ≥ 0` before the route body runs. -/
structure OrderItemCreate where
  product_id : Nat
  quantity : Int
  unit_price : Int
  section_ : Option String
deriving DecidableEq, Repr

def OrderItemCreate.wf (it : OrderItemCreate) : Prop :=
  1 ≤ it.quantity ∧ 0 ≤ it.unit_price

/-- Request body (`OrderCreate`). -/
structure OrderCreate where
  client_id : Nat
  items : List OrderItemCreate
deriving DecidableEq, Repr

def OrderCreate.wf (req : OrderCreate) : Prop :=
  ∀ it ∈ req.items, it.wf

instance : DecidablePred OrderItemCreate.wf :=
  fun it => decidable_of_iff (1 ≤ it.quantity ∧ 0 ≤ it.unit_price) Iff.rfl

instance : DecidablePred OrderCreate.wf :=
  fun req => decidable_of_iff (∀ it ∈ req.items, it.wf) Iff.rfl

/-- Response model (`OrderRead`): the order's fields plus its loaded items. -/
structure OrderRead where
  id : Nat
  client_id : Nat
  order_date : DateTime
  status : String
  items : List OrderItem
deriving DecidableEq, Repr

/-- The validation pre-pass of `create_order` (orders.py lines 135–143):
for each item in order, the product must exist and have stock ≥ quantity;
the first violation raises. -/
def validateItems (s : Store) : List OrderItemCreate → Option ApiError
  | [] => none
  | item :: rest =>
    match getProduct s item.product_id with
    | none => some (.notFoundProduct item.product_id)
    | some product =>
      if product.initial_stock < item.quantity then
        some (.insufficientStock item.product_id)
      else
        validateItems s rest

/-- One iteration of the write loop (orders.py lines 150–161): re-read the
product, decrement its stock in place, and insert the `OrderItem` row.
(The `none` branch is unreachable after validation; the Python would raise
an `AttributeError` on `None` there.) -/
def applyItem (oid : Nat) (st : Store) (item : OrderItemCreate) (iid : Nat) : Store :=
  match getProduct st item.product_id with
  | none => st
  | some product =>
    let product' : Product := { product with initial_stock := product.initial_stock - item.quantity }
    let st' : Store := { st with
      products := st.products.map (fun (p : Product) => if p.id == product.id then product' else p) }
    { st' with order_items := st'.order_items ++
        [{ id := iid, order_id := oid, product_id := item.product_id,
           quantity := item.quantity, unit_price := item.unit_price,
           section_ := item.section_ }] }

/-- The write loop over all items; `iid` is the fresh-id counter for the
generated `OrderItem.id`s. -/
def applyItems (oid : Nat) : Store → List OrderItemCreate → Nat → Store
  | st, [], _ => st
  | st, item :: rest, iid => applyItems oid (applyItem oid st item iid) rest (iid + 1)

/-- `create_order` (orders.py lines 118–167).  `now` models
`datetime.utcnow()`, `fresh` the `uuid4` generator (the order gets id
`fresh`, the i-th item id `fresh + 1 + i`).  Note the TWO commits: the bare
order is committed alone before any stock decrement or item insertion. -/
def create_order (s : Store) (order_in : OrderCreate) (now : DateTime) (fresh : Nat) :
    RequestResult OrderRead :=
  match validateItems s order_in.items with
  | some e => .err e [] s
  | none =>
    let db_order : Order :=
      { id := fresh, client_id := order_in.client_id, order_date := now,
        status := "pending", updated_at := now }
    let s1 : Store := { s with orders := s.orders ++ [db_order] }
    let s2 : Store := applyItems fresh s1 order_in.items (fresh + 1)
    .ok [s1, s2] s2
      { id := db_order.id, client_id := db_order.client_id,
        order_date := db_order.order_date, status := db_order.status,
        items := itemsOf s2 fresh }

def RequestResult.isOk {ρ : Type} : RequestResult ρ → Bool
  | .ok _ _ _ => true
  | .err _ _ _ => false

/-- Request body (`OrderUpdate`): `status: Optional[str] = None`. -/
structure OrderUpdate where
  status : Option String
deriving DecidableEq, Repr

/-- `update_order` (orders.py lines 212–236).  Python's `if order_up.status:`
is falsy both for `None` and for the empty string, so an empty-string status
is NOT applied; `updated_at` is refreshed unconditionally. -/
def update_order (s : Store) (oid : Nat) (order_up : OrderUpdate) (now : DateTime) :
    RequestResult OrderRead :=
  match getOrder s oid with
  | none => .err .notFoundOrder [] s
  | some order =>
    let order1 : Order :=
      match order_up.status with
      | some st => if st = "" then order else { order with status := st }
      | none => order
    let order2 : Order := { order1 with updated_at := now }
    let s' : Store :=
      { s with orders := s.orders.map (fun (o : Order) => if o.id == oid then order2 else o) }
    .ok [s'] s'
      { id := order2.id, client_id := order2.client_id, order_date := order2.order_date,
        status := order2.status, items := itemsOf s' oid }

/-- `delete_order` (orders.py lines 254–265): bulk-delete the order's items,
delete the order, one commit.  Products are not touched. -/
def delete_order (s : Store) (oid : Nat) : RequestResult Unit :=
  match getOrder s oid with
  | none => .err .notFoundOrder [] s
  | some _ =>
    let s' : Store := { s with
      order_items := s.order_items.filter (fun i => i.order_id != oid),
      orders := s.orders.filter (fun o => o.id != oid) }
    .ok [s'] s' ()

/-- `list_orders` (orders.py lines 68–101).  Each present filter adds a
`where` clause; `if status:` / `if section:` are falsy for the empty string,
so an empty-string filter is skipped.  The section filter is the
`join(Order.items)` semi-join (row multiplicity introduced by the SQL join
is not modelled; no claim depends on it).  `offset`/`limit` close the query. -/
def list_orders (s : Store) (start_date end_date : Option Nat) (section_ : Option String)
    (order_id : Option Nat) (status : Option String) (client_id : Option Nat)
    (skip limit : Nat) : List Order :=
  let q : List Order := s.orders
  let q : List Order := match start_date with
    | some d => q.filter (fun o => dtLe (startOfDay d) o.order_date)
    | none => q
  let q : List Order := match end_date with
    | some d => q.filter (fun o => dtLe o.order_date (endOfDay d))
    | none => q
  let q : List Order := match order_id with
    | some oid => q.filter (fun o => o.id == oid)
    | none => q
  let q : List Order := match status with
    | some st => if st = "" then q else q.filter (fun o => o.status == st)
    | none => q
  let q : List Order := match client_id with
    | some cid => q.filter (fun o => o.client_id == cid)
    | none => q
  let q : List Order := match section_ with
    | some sec => if sec = "" then q else
        q.filter (fun o => s.order_items.any (fun i => i.order_id == o.id && i.section_ == some sec))
    | none => q
  (q.drop skip).take limit

/-! ### Concrete fixtures for the executable runs -/

def t0 : DateTime := ⟨20000, 0⟩

def prod1 : Product :=
  { id := 1, description := "d", sale_price := 10, barcode := "b1", section_ := "sec",
    category := none, initial_stock := 5, expiration_date := none,
    created_at := t0, updated_at := t0 }

def store1 : Store :=
  { products := [prod1], product_images := [], orders := [], order_items := [], users := [] }

/-- A valid one-item order request against `store1`. -/
def req1 : OrderCreate := { client_id := 7, items := [⟨1, 2, 10, some "sec"⟩] }

/-- A request mentioning product 1 twice, 3 units each (5 in stock). -/
def req2 : OrderCreate := { client_id := 7, items := [⟨1, 3, 10, none⟩, ⟨1, 3, 10, none⟩] }

def prod2 : Product :=
  { id := 2, description := "e", sale_price := 20, barcode := "b2", section_ := "sec2",
    category := none, initial_stock := 4, expiration_date := none,
    created_at := t0, updated_at := t0 }

def store2 : Store :=
  { products := [prod1, prod2], product_images := [], orders := [], order_items := [], users := [] }

/-- A valid two-item request over distinct products of `store2`. -/
def req4 : OrderCreate :=
  { client_id := 7, items := [⟨1, 2, 10, some "sec"⟩, ⟨2, 4, 20, some "sec2"⟩] }

/-! ### Catalog manager (`app/api/routes/products.py`) -/

/-- Request body (`ProductCreate`): the product's fields plus image URLs. -/
structure ProductCreate where
  description : String
  sale_price : Int
  barcode : String
  section_ : String
  category : Option String
  initial_stock : Int
  expiration_date : Option Nat
  images : List String
deriving DecidableEq, Repr

/-- Request body (`ProductUpdate`): every field optional; `none` models an
unset field (`model_dump(exclude_unset=True)` drops it). -/
structure ProductUpdate where
  description : Option String
  sale_price : Option Int
  barcode : Option String
  section_ : Option String
  category : Option String
  initial_stock : Option Int
  expiration_date : Option Nat
deriving DecidableEq, Repr

/-- `sqlmodel_update(update_data)`: apply exactly the set fields. -/
def applyProductUpdate (p : Product) (up : ProductUpdate) : Product :=
  { p with
    description := up.description.getD p.description,
    sale_price := up.sale_price.getD p.sale_price,
    barcode := up.barcode.getD p.barcode,
    section_ := up.section_.getD p.section_,
    category := match up.category with | some c => some c | none => p.category,
    initial_stock := up.initial_stock.getD p.initial_stock,
    expiration_date := match up.expiration_date with | some d => some d | none => p.expiration_date }

/-- `create_product` (products.py lines 127–157): reject any barcode already
present, then commit the product alone, then commit its image rows. -/
def create_product (s : Store) (product_in : ProductCreate) (now : DateTime) (fresh : Nat) :
    RequestResult Product :=
  match s.products.find? (fun p => p.barcode == product_in.barcode) with
  | some _ => .err .conflictBarcode [] s
  | none =>
    let db_product : Product :=
      { id := fresh, description := product_in.description, sale_price := product_in.sale_price,
        barcode := product_in.barcode, section_ := product_in.section_,
        category := product_in.category, initial_stock := product_in.initial_stock,
        expiration_date := product_in.expiration_date, created_at := now, updated_at := now }
    let s1 : Store := { s with products := s.products ++ [db_product] }
    let imgs : List ProductImage :=
      (product_in.images.enum).map (fun pr => { id := fresh + 1 + pr.1, product_id := fresh, url := pr.2 })
    let s2 : Store := { s1 with product_images := s1.product_images ++ imgs }
    .ok [s1, s2] s2 db_product

/-- `update_product` (products.py lines 211–244).  Python's
`if product_up.barcode and product_up.barcode != product.barcode:` skips the
uniqueness check both when the barcode field is unset AND when it is the
empty string (falsy), and when it equals the product's own barcode. -/
def update_product (s : Store) (product_id : Nat) (product_up : ProductUpdate) :
    RequestResult Product :=
  match getProduct s product_id with
  | none => .err (.notFoundProduct product_id) [] s
  | some product =>
    let conflict : Bool :=
      match product_up.barcode with
      | some b =>
        if b ≠ "" ∧ b ≠ product.barcode then
          (s.products.find? (fun p => p.barcode == b && p.id != product_id)).isSome
        else false
      | none => false
    if conflict then .err .conflictBarcode [] s
    else
      let product' : Product := applyProductUpdate product product_up
      let s' : Store :=
        { s with products := s.products.map (fun (p : Product) => if p.id == product_id then product' else p) }
      .ok [s'] s' product'

/-! ### User directory (`app/api/routes/users.py`) -/

/-- Modelled from the spec: `get_password_hash` lives in
`app/core/security.py`, which is not part of the sources; the spec treats
password hashing as an opaque authentication service, so it is modelled as
an injective tagging of the password. -/
def get_password_hash (p : String) : String := "$2b$" ++ p

/-- Modelled from the spec: `verify_password` (also `app/core/security.py`)
checks a plaintext credential against a stored hash. -/
def verify_password (plain hashed : String) : Bool := get_password_hash plain == hashed

/-- Request body (`UpdatePassword`). -/
structure UpdatePassword where
  current_password : String
  new_password : String
deriving DecidableEq, Repr

/-- `update_password_me` (users.py lines 82–124): wrong current password and
new-equals-current both raise 400 before any write; otherwise the stored
hash is replaced by the hash of the new password and committed. -/
def update_password_me (s : Store) (current_user : User) (body : UpdatePassword) :
    RequestResult String :=
  if ¬ verify_password body.current_password current_user.hashed_password then
    .err .incorrectPassword [] s
  else if body.current_password = body.new_password then
    .err .newPasswordEqualsCurrent [] s
  else
    let user' : User := { current_user with hashed_password := get_password_hash body.new_password }
    let s' : Store :=
      { s with users := s.users.map (fun (u : User) => if u.id == current_user.id then user' else u) }
    .ok [s'] s' "password updated sucessfully"

/-- `read_user_by_id` (users.py lines 184–224).  `session.get` may return
`None`; Python's `user == current_user` is `False` then, and the role gate
runs next, so a missing user yields Forbidden for a non-admin and a `None`
body (no NotFound) for an admin. -/
def read_user_by_id (s : Store) (user_id : Nat) (current_user : User) :
    Except ApiError (Option User) :=
  let user : Option User := s.users.find? (fun u => u.id == user_id)
  if user = some current_user then .ok user
  else if current_user.role ≠ UserRole.ADMIN then .error .forbidden
  else .ok user

/-! ### More concrete fixtures -/

def t1 : DateTime := ⟨20001, 0⟩

def ord1 : Order := { id := 50, client_id := 7, order_date := t0, status := "pending", updated_at := t0 }

def item1 : OrderItem :=
  { id := 60, order_id := 50, product_id := 1, quantity := 2, unit_price := 10, section_ := some "sec" }

def store3 : Store :=
  { products := [prod1], product_images := [], orders := [ord1], order_items := [item1], users := [] }

/-- Two products, one with the empty string as barcode. -/
def prodE : Product :=
  { id := 3, description := "f", sale_price := 1, barcode := "", section_ := "s3",
    category := none, initial_stock := 1, expiration_date := none,
    created_at := t0, updated_at := t0 }

def store4 : Store :=
  { products := [prodE, prod2], product_images := [], orders := [], order_items := [], users := [] }

def userAdmin : User :=
  { id := 10, email := "a@x", is_active := true, full_name := none,
    role := UserRole.ADMIN, hashed_password := get_password_hash "adminpass" }

def userClient : User :=
  { id := 11, email := "c@x", is_active := true, full_name := none,
    role := UserRole.CLIENT, hashed_password := get_password_hash "clientpass" }

def store5 : Store :=
  { products := [], product_images := [], orders := [], order_items := [],
    users := [userAdmin, userClient] }

/-- Orders on days 9, 10, 12 and 13 (micro 0 or mid-day) for the date-range run. -/
def ordA : Order := { id := 70, client_id := 7, order_date := ⟨9, 123⟩, status := "pending", updated_at := t0 }

def ordB : Order := { id := 71, client_id := 7, order_date := ⟨10, 0⟩, status := "pending", updated_at := t0 }

def ordC : Order := { id := 72, client_id := 8, order_date := ⟨12, 86399999999⟩, status := "shipped", updated_at := t0 }

def ordD : Order := { id := 73, client_id := 8, order_date := ⟨13, 5⟩, status := "pending", updated_at := t0 }

def store6 : Store :=
  { products := [], product_images := [], orders := [ordA, ordB, ordC, ordD],
    order_items := [], users := [] }

/-- A ProductUpdate that only sets the barcode, to the empty string. -/
def upEmptyBarcode : ProductUpdate :=
  { description := none, sale_price := none, barcode := some "", section_ := none,
    category := none, initial_stock := none, expiration_date := none }

/-- A ProductUpdate that only sets the barcode, to "b2". -/
def upB2 : ProductUpdate :=
  { description := none, sale_price := none, barcode := some "b2", section_ := none,
    category := none, initial_stock := none, expiration_date := none }

/-- A ProductCreate reusing the barcode "b2". -/
def pinB2 : ProductCreate :=
  { description := "g", sale_price := 2, barcode := "b2", section_ := "s", category := none,
    initial_stock := 0, expiration_date := none, images := [] }

/-! ### Lemmas about the validation pre-pass -/

theorem validateItems_eq_none_iff (s : Store) (items : List OrderItemCreate) :
    validateItems s items = none ↔
      ∀ it ∈ items, ∃ p, getProduct s it.product_id = some p ∧ it.quantity ≤ p.initial_stock := by
  induction items with
  | nil => simp [validateItems]
  | cons item rest ih =>
    cases h : getProduct s item.product_id with
    | none => simp [validateItems, h]
    | some p =>
      by_cases hlt : p.initial_stock < item.quantity
      · simp [validateItems, h, hlt, not_le.mpr hlt]
      · simp [validateItems, h, hlt, ih, not_lt.mp hlt]

theorem validateItems_notFound (s : Store) (items : List OrderItemCreate)
    (hsuff : ∀ it ∈ items, ∀ p, getProduct s it.product_id = some p → it.quantity ≤ p.initial_stock)
    (hbad : ∃ it ∈ items, getProduct s it.product_id = none) :
    ∃ it ∈ items, getProduct s it.product_id = none ∧
      validateItems s items = some (.notFoundProduct it.product_id) := by
  induction items with
  | nil => simp at hbad
  | cons item rest ih =>
    cases hp : getProduct s item.product_id with
    | none => exact ⟨item, List.mem_cons_self _ _, hp, by simp [validateItems, hp]⟩
    | some p =>
      have hlt : ¬ p.initial_stock < item.quantity :=
        not_lt.mpr (hsuff item (List.mem_cons_self _ _) p hp)
      have hbad' : ∃ it ∈ rest, getProduct s it.product_id = none := by
        rcases hbad with ⟨it, hmem, hnone⟩
        rcases List.mem_cons.mp hmem with rfl | hmem'
        · rw [hp] at hnone; cases hnone
        · exact ⟨it, hmem', hnone⟩
      obtain ⟨it, hm, hnone, hv⟩ :=
        ih (fun it h q hq => hsuff it (List.mem_cons_of_mem _ h) q hq) hbad'
      exact ⟨it, List.mem_cons_of_mem _ hm, hnone, by simp [validateItems, hp, hlt, hv]⟩

theorem validateItems_insufficient (s : Store) (items : List OrderItemCreate)
    (hex : ∀ it ∈ items, (getProduct s it.product_id).isSome)
    (hbad : ∃ it ∈ items, ∃ p, getProduct s it.product_id = some p ∧ p.initial_stock < it.quantity) :
    ∃ it ∈ items, validateItems s items = some (.insufficientStock it.product_id) := by
  induction items with
  | nil => simp at hbad
  | cons item rest ih =>
    obtain ⟨p, hp⟩ := Option.isSome_iff_exists.mp (hex item (List.mem_cons_self _ _))
    by_cases hlt : p.initial_stock < item.quantity
    · exact ⟨item, List.mem_cons_self _ _, by simp [validateItems, hp, hlt]⟩
    · have hbad' : ∃ it ∈ rest, ∃ q, getProduct s it.product_id = some q ∧ q.initial_stock < it.quantity := by
        rcases hbad with ⟨it, hmem, q, hq, hlt'⟩
        rcases List.mem_cons.mp hmem with rfl | hmem'
        · rw [hp] at hq; cases hq; exact absurd hlt' hlt
        · exact ⟨it, hmem', q, hq, hlt'⟩
      obtain ⟨it, hm, hv⟩ := ih (fun it h => hex it (List.mem_cons_of_mem _ h)) hbad'
      exact ⟨it, List.mem_cons_of_mem _ hm, by simp [validateItems, hp, hlt, hv]⟩

/-! ### Lemmas about the write pass -/

/-- Total quantity requested for product `pid` across an item list. -/
def totalQty (pid : Nat) : List OrderItemCreate → Int
  | [] => 0
  | it :: rest => (if it.product_id = pid then it.quantity else 0) + totalQty pid rest

/-- The `OrderItem` rows the write pass inserts for order `oid`, with ids
allocated from `iid`. -/
def expectedItems (oid : Nat) : Nat → List OrderItemCreate → List OrderItem
  | _, [] => []
  | iid, it :: rest =>
    { id := iid, order_id := oid, product_id := it.product_id, quantity := it.quantity,
      unit_price := it.unit_price, section_ := it.section_ } :: expectedItems oid (iid + 1) rest

theorem expectedItems_length (oid : Nat) (iid : Nat) (items : List OrderItemCreate) :
    (expectedItems oid iid items).length = items.length := by
  induction items generalizing iid with
  | nil => rfl
  | cons it rest ih => simp [expectedItems, ih]

/-- `find?` commutes with mapping a function that does not disturb the
predicate (the in-place `session.add` update of an identity-mapped row). -/
theorem find?_map_pres {α : Type} (f : α → α) (q : α → Bool) (hf : ∀ a, q (f a) = q a)
    (l : List α) : (l.map f).find? q = (l.find? q).map f := by
  induction l with
  | nil => rfl
  | cons a l ih =>
    simp only [List.map_cons, List.find?_cons, hf a]
    cases h : q a with
    | true => simp [h]
    | false => simp [h, ih]

theorem find?_map_of_id_pres {f : Product → Product} (hf : ∀ p, (f p).id = p.id)
    (l : List Product) (pid : Nat) :
    (l.map f).find? (fun p => p.id == pid) = (l.find? (fun p => p.id == pid)).map f :=
  find?_map_pres f (fun p => p.id == pid) (fun p => by simp only []; rw [hf p]) l

theorem getProduct_applyItem (oid : Nat) (st : Store) (it : OrderItemCreate) (iid : Nat) (pid : Nat) :
    getProduct (applyItem oid st it iid) pid =
      if pid = it.product_id then
        (getProduct st pid).map (fun p => { p with initial_stock := p.initial_stock - it.quantity })
      else getProduct st pid := by
  cases h : getProduct st it.product_id with
  | none =>
    have happ : applyItem oid st it iid = st := by unfold applyItem; rw [h]
    rw [happ]
    by_cases hpid : pid = it.product_id
    · subst hpid; rw [if_pos rfl, h]; rfl
    · rw [if_neg hpid]
  | some product =>
    have h1 : st.products.find? (fun p => p.id == it.product_id) = some product := h
    have hpi : product.id = it.product_id := by simpa using List.find?_some h1
    have hf : ∀ p : Product,
        ((if p.id == product.id then
          { product with initial_stock := product.initial_stock - it.quantity } else p) : Product).id
          = p.id := by
      intro p
      by_cases hp : (p.id == product.id) = true
      · rw [if_pos hp]
        have hpp : p.id = product.id := by simpa using hp
        exact hpp.symm
      · rw [if_neg hp]
    have hmap : getProduct (applyItem oid st it iid) pid =
        (st.products.find? (fun p => p.id == pid)).map
          (fun p => if p.id == product.id then
            { product with initial_stock := product.initial_stock - it.quantity } else p) := by
      have happ : (applyItem oid st it iid).products =
          st.products.map (fun p => if p.id == product.id then
            { product with initial_stock := product.initial_stock - it.quantity } else p) := by
        unfold applyItem; rw [h]
      show ((applyItem oid st it iid).products).find? (fun p => p.id == pid) = _
      rw [happ]
      exact find?_map_of_id_pres hf st.products pid
    rw [hmap]
    by_cases hpid : pid = it.product_id
    · rw [if_pos hpid]
      have hfind : st.products.find? (fun p => p.id == pid) = some product := by
        rw [hpid]; exact h
      have hfind' : getProduct st pid = some product := by rw [hpid]; exact h
      rw [hfind, hfind']
      simp
    · rw [if_neg hpid]
      cases hq : st.products.find? (fun p => p.id == pid) with
      | none =>
        rw [show getProduct st pid = st.products.find? (fun p => p.id == pid) from rfl, hq]; rfl
      | some q =>
        have hqid : q.id = pid := by simpa using List.find?_some hq
        have hne : q.id ≠ product.id := by rw [hqid, hpi]; exact hpid
        rw [show getProduct st pid = st.products.find? (fun p => p.id == pid) from rfl, hq]
        simp [hne]

theorem orders_applyItem (oid : Nat) (st : Store) (it : OrderItemCreate) (iid : Nat) :
    (applyItem oid st it iid).orders = st.orders := by
  unfold applyItem
  cases getProduct st it.product_id <;> rfl

theorem orders_applyItems (oid : Nat) (items : List OrderItemCreate) :
    ∀ (st : Store) (iid : Nat), (applyItems oid st items iid).orders = st.orders := by
  induction items with
  | nil => intro st iid; rfl
  | cons it rest ih =>
    intro st iid
    rw [applyItems, ih, orders_applyItem]

theorem getProduct_applyItems (oid : Nat) (items : List OrderItemCreate) :
    ∀ (st : Store) (iid : Nat) (pid : Nat),
      getProduct (applyItems oid st items iid) pid =
        (getProduct st pid).map
          (fun p => { p with initial_stock := p.initial_stock - totalQty pid items }) := by
  induction items with
  | nil =>
    intro st iid pid
    show getProduct st pid = _
    cases getProduct st pid with
    | none => rfl
    | some p => simp [totalQty]
  | cons it rest ih =>
    intro st iid pid
    rw [applyItems, ih, getProduct_applyItem]
    by_cases hpid : pid = it.product_id
    · rw [if_pos hpid, Option.map_map]
      cases getProduct st pid with
      | none => rfl
      | some p =>
        have hq : totalQty pid (it :: rest) = it.quantity + totalQty pid rest := by
          simp [totalQty, hpid.symm]
        simp only [Option.map_some, Option.map, Function.comp]
        rw [hq]
        congr 1
        simp [Int.sub_sub]
    · rw [if_neg hpid]
      have hq : totalQty pid (it :: rest) = totalQty pid rest := by
        have : ¬ (it.product_id = pid) := fun hcon => hpid hcon.symm
        simp [totalQty, this]
      rw [hq]

theorem order_items_applyItem_some (oid : Nat) (st : Store) (it : OrderItemCreate) (iid : Nat)
    (h : (getProduct st it.product_id).isSome) :
    (applyItem oid st it iid).order_items = st.order_items ++
      [{ id := iid, order_id := oid, product_id := it.product_id, quantity := it.quantity,
         unit_price := it.unit_price, section_ := it.section_ }] := by
  unfold applyItem
  cases hp : getProduct st it.product_id with
  | none => rw [hp] at h; cases h
  | some product => rfl

theorem itemsOf_applyItems (oid : Nat) (items : List OrderItemCreate) :
    ∀ (st : Store) (iid : Nat),
      (∀ it2 ∈ items, (getProduct st it2.product_id).isSome) →
      itemsOf (applyItems oid st items iid) oid = itemsOf st oid ++ expectedItems oid iid items := by
  induction items with
  | nil => intro st iid _; simp [applyItems, expectedItems]
  | cons it rest ih =>
    intro st iid hpres
    have hsome := hpres it (List.mem_cons_self _ _)
    have hpres' : ∀ it2 ∈ rest, (getProduct (applyItem oid st it iid) it2.product_id).isSome := by
      intro it2 h2
      rw [getProduct_applyItem]
      have := hpres it2 (List.mem_cons_of_mem _ h2)
      by_cases hp : it2.product_id = it.product_id
      · rw [if_pos hp]
        cases hg : getProduct st it2.product_id with
        | none => rw [hg] at this; cases this
        | some p => rfl
      · rw [if_neg hp]; exact this
    rw [applyItems, ih _ _ hpres']
    have hstep : itemsOf (applyItem oid st it iid) oid = itemsOf st oid ++
        [{ id := iid, order_id := oid, product_id := it.product_id, quantity := it.quantity,
           unit_price := it.unit_price, section_ := it.section_ }] := by
      unfold itemsOf
      rw [order_items_applyItem_some oid st it iid hsome, List.filter_append]
      simp
    rw [hstep, expectedItems]
    simp

/-! ### Theorems -/

/-- C1: create_order is NOT atomic: on a valid one-item request, the first
`session.commit()` publishes a store state in which the order row exists but
no item row for it exists and the product's stock is still undecremented;
the item insertion and the stock decrement only land with the second commit.
This contradicts the spec's single-atomic-unit requirement (code bug
evaluated at a concrete failing input). -/
theorem create_order_commits_bare_order_first :
    (create_order store1 req1 t0 100).commits.length = 2 ∧
    req1.items ≠ [] ∧
    getOrder ((create_order store1 req1 t0 100).commits.getD 0 store1) 100 ≠ none ∧
    itemsOf ((create_order store1 req1 t0 100).commits.getD 0 store1) 100 = [] ∧
    stockOf ((create_order store1 req1 t0 100).commits.getD 0 store1) 1 = some 5 ∧
    (itemsOf ((create_order store1 req1 t0 100).finalStore) 100).length = 1 ∧
    stockOf ((create_order store1 req1 t0 100).finalStore) 1 = some 3 := by
  decide

/-- C2: the non-negative-stock invariant fails: a well-formed request whose
item list mentions the same product twice passes the validation pre-pass
(each quantity is checked against the unmutated stock) and then decrements
the stock once per item, driving `initial_stock` to −1 even though the
model itself declares `initial_stock ≥ 0` (code bug evaluated at a concrete
failing input). -/
theorem create_order_can_drive_stock_negative :
    req2.wf ∧
    (∀ p ∈ store1.products, 0 ≤ p.initial_stock) ∧
    (create_order store1 req2 t0 100).isOk = true ∧
    stockOf ((create_order store1 req2 t0 100).finalStore) 1 = some (-1) := by
  decide

/-- C3: create_order validates every requested item before performing any
write.  (i) When some requested product is absent (and the items whose
products do exist are within stock, so absence is the first kind of fault
the sequential pre-pass can hit), the call fails with NotFound naming an
absent product.  (ii) When every product exists and some item exceeds its
stock, the call fails with InsufficientStock naming such an item's product.
(iii) Every failure commits nothing and leaves the store exactly as before
the call. -/
theorem create_order_prevalidates (s : Store) (req : OrderCreate) (now : DateTime) (fresh : Nat) :
    ((∃ it ∈ req.items, getProduct s it.product_id = none) →
     (∀ it ∈ req.items, ∀ p, getProduct s it.product_id = some p → it.quantity ≤ p.initial_stock) →
      ∃ it ∈ req.items, getProduct s it.product_id = none ∧
        create_order s req now fresh = .err (.notFoundProduct it.product_id) [] s)
    ∧ ((∀ it ∈ req.items, (getProduct s it.product_id).isSome) →
       (∃ it ∈ req.items, ∃ p, getProduct s it.product_id = some p ∧ p.initial_stock < it.quantity) →
        ∃ it ∈ req.items, create_order s req now fresh = .err (.insufficientStock it.product_id) [] s)
    ∧ (∀ e committed final, create_order s req now fresh = .err e committed final →
        committed = [] ∧ final = s) := by
  refine ⟨?_, ?_, ?_⟩
  · intro hbad hsuff
    obtain ⟨it, hm, hnone, hv⟩ := validateItems_notFound s req.items hsuff hbad
    exact ⟨it, hm, hnone, by simp [create_order, hv]⟩
  · intro hex hbad
    obtain ⟨it, hm, hv⟩ := validateItems_insufficient s req.items hex hbad
    exact ⟨it, hm, by simp [create_order, hv]⟩
  · intro e committed final h
    unfold create_order at h
    cases hv : validateItems s req.items with
    | none => rw [hv] at h; cases h
    | some e' => rw [hv] at h; cases h; exact ⟨rfl, rfl⟩

/-- Witness for C3 at concrete inputs: a request naming the absent product 9
fails with NotFound and leaves the store untouched, and a request for 6 of
product 1 (5 in stock) fails with InsufficientStock and leaves the store
untouched. -/
theorem create_order_prevalidates_witness :
    ((∃ it ∈ (OrderCreate.mk 7 [⟨9, 1, 10, none⟩]).items, getProduct store1 it.product_id = none) ∧
      ∃ it ∈ (OrderCreate.mk 7 [⟨9, 1, 10, none⟩]).items, getProduct store1 it.product_id = none ∧
        create_order store1 (OrderCreate.mk 7 [⟨9, 1, 10, none⟩]) t0 100 =
          .err (.notFoundProduct it.product_id) [] store1)
    ∧ ((∃ it ∈ (OrderCreate.mk 7 [⟨1, 6, 10, none⟩]).items, ∃ p,
          getProduct store1 it.product_id = some p ∧ p.initial_stock < it.quantity) ∧
        ∃ it ∈ (OrderCreate.mk 7 [⟨1, 6, 10, none⟩]).items,
          create_order store1 (OrderCreate.mk 7 [⟨1, 6, 10, none⟩]) t0 100 =
            .err (.insufficientStock it.product_id) [] store1) := by
  refine ⟨⟨by decide, ?_⟩, ⟨by decide, ?_⟩⟩
  · exact (create_order_prevalidates store1 (OrderCreate.mk 7 [⟨9, 1, 10, none⟩]) t0 100).1
      (by decide) (by decide)
  · exact (create_order_prevalidates store1 (OrderCreate.mk 7 [⟨1, 6, 10, none⟩]) t0 100).2.1
      (by decide) (by decide)

/-- C4 (amended): when every referenced product exists and each item's
quantity is at most that product's current stock, create_order succeeds,
the order is bound to the request's client, exactly N items are persisted
and returned, each recording the requested product reference, quantity,
caller-supplied unit_price and section, and each product's stock decreases
by the TOTAL quantity over all of the order's items referencing it (equal
to that item's quantity when product ids within the request are distinct). -/
theorem create_order_success (s : Store) (req : OrderCreate) (now : DateTime) (fresh : Nat)
    (hvalid : ∀ it ∈ req.items, ∃ p, getProduct s it.product_id = some p ∧ it.quantity ≤ p.initial_stock)
    (hfresh : ∀ i ∈ s.order_items, i.order_id ≠ fresh) :
    ∃ s2 resp, create_order s req now fresh =
        .ok [{ s with orders := s.orders ++
          [{ id := fresh, client_id := req.client_id, order_date := now,
             status := "pending", updated_at := now }] }, s2] s2 resp ∧
      resp.id = fresh ∧
      resp.client_id = req.client_id ∧
      resp.items = expectedItems fresh (fresh + 1) req.items ∧
      resp.items.length = req.items.length ∧
      itemsOf s2 fresh = expectedItems fresh (fresh + 1) req.items ∧
      s2.orders = s.orders ++
        [{ id := fresh, client_id := req.client_id, order_date := now,
           status := "pending", updated_at := now }] ∧
      (∀ pid, getProduct s2 pid = (getProduct s pid).map
          (fun p => { p with initial_stock := p.initial_stock - totalQty pid req.items })) := by
  have hval : validateItems s req.items = none := (validateItems_eq_none_iff s req.items).mpr hvalid
  have hs1 : ∀ pid, getProduct ({ s with orders := s.orders ++
      [{ id := fresh, client_id := req.client_id, order_date := now,
         status := "pending", updated_at := now }] } : Store) pid = getProduct s pid :=
    fun _ => rfl
  have hpres : ∀ it ∈ req.items, (getProduct ({ s with orders := s.orders ++
      [{ id := fresh, client_id := req.client_id, order_date := now,
         status := "pending", updated_at := now }] } : Store) it.product_id).isSome := by
    intro it hm
    obtain ⟨p, hp, _⟩ := hvalid it hm
    rw [hs1, hp]; rfl
  have hempty : itemsOf ({ s with orders := s.orders ++
      [{ id := fresh, client_id := req.client_id, order_date := now,
         status := "pending", updated_at := now }] } : Store) fresh = [] := by
    unfold itemsOf
    rw [List.filter_eq_nil_iff]
    intro i hi
    simpa using hfresh i hi
  have hitems : itemsOf (applyItems fresh ({ s with orders := s.orders ++
      [{ id := fresh, client_id := req.client_id, order_date := now,
         status := "pending", updated_at := now }] } : Store) req.items (fresh + 1)) fresh =
      expectedItems fresh (fresh + 1) req.items := by
    rw [itemsOf_applyItems fresh req.items _ (fresh + 1) hpres, hempty, List.nil_append]
  refine ⟨applyItems fresh ({ s with orders := s.orders ++
      [{ id := fresh, client_id := req.client_id, order_date := now,
         status := "pending", updated_at := now }] } : Store) req.items (fresh + 1),
    { id := fresh, client_id := req.client_id, order_date := now, status := "pending",
      items := itemsOf (applyItems fresh ({ s with orders := s.orders ++
        [{ id := fresh, client_id := req.client_id, order_date := now,
           status := "pending", updated_at := now }] } : Store) req.items (fresh + 1)) fresh },
    ?_, rfl, rfl, hitems, ?_, hitems, orders_applyItems fresh req.items _ (fresh + 1), ?_⟩
  · unfold create_order
    rw [hval]
  · show (itemsOf (applyItems fresh _ req.items (fresh + 1)) fresh).length = req.items.length
    rw [hitems]
    exact expectedItems_length fresh (fresh + 1) req.items
  · intro pid
    rw [getProduct_applyItems fresh req.items _ (fresh + 1) pid, hs1 pid]

/-- Counterexample to C4 as stated: `req2` satisfies the claim's
precondition (each item's quantity 3 is at most product 1's stock 5), the
call succeeds, yet product 1's stock ends at −1, not at 5 − 3 = 2 as the
per-item-decrement reading demands (the two items reference the same
product and both decrements apply). -/
theorem create_order_per_item_decrement_counterexample :
    (∀ it ∈ req2.items, ∃ p, getProduct store1 it.product_id = some p ∧ it.quantity ≤ p.initial_stock) ∧
    (∀ it ∈ req2.items, it.quantity = 3) ∧
    stockOf store1 1 = some 5 ∧
    (create_order store1 req2 t0 100).isOk = true ∧
    stockOf ((create_order store1 req2 t0 100).finalStore) 1 = some (-1) ∧
    ((-1 : Int) ≠ 5 - 3) := by
  decide

/-- Witness for C4 (amended) at a concrete input: a two-item request over
distinct products 1 and 2 of `store2`. -/
theorem create_order_success_witness :
    (∀ it ∈ req4.items, ∃ p, getProduct store2 it.product_id = some p ∧ it.quantity ≤ p.initial_stock) ∧
    (∀ i ∈ store2.order_items, i.order_id ≠ 100) ∧
    ∃ s2 resp, create_order store2 req4 t0 100 =
        .ok [{ store2 with orders := store2.orders ++
          [{ id := 100, client_id := req4.client_id, order_date := t0,
             status := "pending", updated_at := t0 }] }, s2] s2 resp ∧
      resp.id = 100 ∧
      resp.client_id = req4.client_id ∧
      resp.items = expectedItems 100 (100 + 1) req4.items ∧
      resp.items.length = req4.items.length ∧
      itemsOf s2 100 = expectedItems 100 (100 + 1) req4.items ∧
      s2.orders = store2.orders ++
        [{ id := 100, client_id := req4.client_id, order_date := t0,
           status := "pending", updated_at := t0 }] ∧
      (∀ pid, getProduct s2 pid = (getProduct store2 pid).map
          (fun p => { p with initial_stock := p.initial_stock - totalQty pid req4.items })) :=
  ⟨by decide, by decide, create_order_success store2 req4 t0 100 (by decide) (by decide)⟩

/-- C5: for an existing order, delete_order removes the order and every one
of its items in a single committed step, fails with NotFound when the order
is absent, and in every case leaves the product table (hence every stock
level) untouched. -/
theorem delete_order_spec (s : Store) (oid : Nat) :
    (getOrder s oid = none → delete_order s oid = .err .notFoundOrder [] s)
    ∧ (∀ o, getOrder s oid = some o →
        ∃ s', delete_order s oid = .ok [s'] s' () ∧
          s'.orders = s.orders.filter (fun o2 => o2.id != oid) ∧
          s'.order_items = s.order_items.filter (fun i => i.order_id != oid) ∧
          getOrder s' oid = none ∧
          (∀ i ∈ s'.order_items, i.order_id ≠ oid) ∧
          s'.products = s.products)
    ∧ (delete_order s oid).finalStore.products = s.products := by
  refine ⟨?_, ?_, ?_⟩
  · intro h; unfold delete_order; rw [h]
  · intro o h
    unfold delete_order; rw [h]
    refine ⟨_, rfl, rfl, rfl, ?_, ?_, rfl⟩
    · show List.find? _ (s.orders.filter (fun o2 => o2.id != oid)) = none
      rw [List.find?_eq_none]
      intro a ha
      have := (List.mem_filter.mp ha).2
      simpa using this
    · intro i hi
      have := (List.mem_filter.mp hi).2
      simpa using this
  · unfold delete_order
    cases h : getOrder s oid <;> rfl

/-- Witness for C5 at concrete inputs: deleting the absent order 99 of
`store3` fails with NotFound, and deleting the existing order 50 removes it
and its item while leaving the products untouched. -/
theorem delete_order_spec_witness :
    (getOrder store3 99 = none ∧ delete_order store3 99 = .err .notFoundOrder [] store3)
    ∧ (getOrder store3 50 = some ord1 ∧
        ∃ s', delete_order store3 50 = .ok [s'] s' () ∧
          s'.orders = store3.orders.filter (fun o2 => o2.id != 50) ∧
          s'.order_items = store3.order_items.filter (fun i => i.order_id != 50) ∧
          getOrder s' 50 = none ∧
          (∀ i ∈ s'.order_items, i.order_id ≠ 50) ∧
          s'.products = store3.products) :=
  ⟨⟨by decide, (delete_order_spec store3 99).1 (by decide)⟩,
   ⟨by decide, (delete_order_spec store3 50).2.1 ord1 (by decide)⟩⟩

theorem dtLe_startOfDay (d : Nat) (t : DateTime) : dtLe (startOfDay d) t = decide (d ≤ t.day) := by
  unfold dtLe startOfDay
  rcases Nat.lt_trichotomy d t.day with h | h | h
  · simp [h, Nat.le_of_lt h]
  · simp [h]
  · simp [Nat.lt_asymm h, Nat.not_le.mpr h, Nat.ne_of_gt h]

theorem dtLe_endOfDay (d : Nat) (t : DateTime) (hwf : t.micro < microsPerDay) :
    dtLe t (endOfDay d) = decide (t.day ≤ d) := by
  unfold dtLe endOfDay
  have hm : t.micro ≤ microsPerDay - 1 := Nat.le_sub_one_of_lt hwf
  rcases Nat.lt_trichotomy t.day d with h | h | h
  · simp [h, Nat.le_of_lt h]
  · simp [h, hm]
  · simp [Nat.lt_asymm h, Nat.not_le.mpr h, Nat.ne_of_gt h]

/-- C6: with a date range and no other filters (and pagination wide enough
to not truncate), list_orders returns exactly the orders whose order_date
lies in the range, inclusive on both ends: start_date counts from the first
instant of that day and end_date through the last instant of that day, so
membership depends only on the calendar day of the order_date. -/
theorem list_orders_date_range (s : Store) (d1 d2 : Nat) (limit : Nat)
    (hwf : ∀ o ∈ s.orders, o.order_date.micro < microsPerDay)
    (hlim : s.orders.length ≤ limit) :
    list_orders s (some d1) (some d2) none none none none 0 limit =
      s.orders.filter (fun o => decide (d1 ≤ o.order_date.day) && decide (o.order_date.day ≤ d2)) := by
  have h0 : list_orders s (some d1) (some d2) none none none none 0 limit =
      ((s.orders.filter (fun o => dtLe (startOfDay d1) o.order_date)).filter
        (fun o => dtLe o.order_date (endOfDay d2))).take limit := rfl
  rw [h0, List.filter_filter]
  have hlen : (s.orders.filter
      (fun a => dtLe a.order_date (endOfDay d2) && dtLe (startOfDay d1) a.order_date)).length ≤ limit :=
    le_trans (List.length_filter_le _ _) hlim
  rw [List.take_of_length_le hlen]
  apply List.filter_congr
  intro o ho
  rw [dtLe_startOfDay, dtLe_endOfDay d2 o.order_date (hwf o ho), Bool.and_comm]

/-- Witness for C6 at a concrete input: of the orders of `store6` dated on
days 9, 10, 12 and 13, the range [10, 12] selects exactly the day-10 and
day-12 orders. -/
theorem list_orders_date_range_witness :
    (∀ o ∈ store6.orders, o.order_date.micro < microsPerDay) ∧
    store6.orders.length ≤ 10 ∧
    list_orders store6 (some 10) (some 12) none none none none 0 10 =
      store6.orders.filter
        (fun o => decide (10 ≤ o.order_date.day) && decide (o.order_date.day ≤ 12)) ∧
    list_orders store6 (some 10) (some 12) none none none none 0 10 = [ordB, ordC] :=
  ⟨by decide, by decide, list_orders_date_range store6 10 12 10 (by decide) (by decide), by decide⟩

/-- Counterexample to C7 as stated: updating existing order 50 (status
"pending") with the string "" succeeds but does NOT replace the status with
"" — Python's `if order_up.status:` is falsy for the empty string, so the
status stays "pending". -/
theorem update_order_empty_status_counterexample :
    (update_order store3 50 ⟨some ""⟩ t1).isOk = true ∧
    (getOrder ((update_order store3 50 ⟨some ""⟩ t1).finalStore) 50).map (fun o => o.status)
      = some "pending" ∧
    "pending" ≠ "" := by
  decide

/-- C7 (amended): update_order replaces an existing order's status verbatim
for every NON-EMPTY string, refreshes updated_at to the current time, and
leaves the order's other fields, all items and all products unchanged; an
empty (or omitted) status leaves the status field unchanged while still
refreshing updated_at; the call fails with NotFound when the order is
absent. -/
theorem update_order_spec (s : Store) (oid : Nat) (up : OrderUpdate) (now : DateTime) :
    (getOrder s oid = none → update_order s oid up now = .err .notFoundOrder [] s)
    ∧ (∀ o, getOrder s oid = some o → ∀ st, up.status = some st → st ≠ "" →
        ∃ s' resp, update_order s oid up now = .ok [s'] s' resp ∧
          resp.status = st ∧
          getOrder s' oid = some { o with status := st, updated_at := now } ∧
          s'.order_items = s.order_items ∧
          s'.products = s.products)
    ∧ (∀ o, getOrder s oid = some o → up.status = some "" →
        ∃ s' resp, update_order s oid up now = .ok [s'] s' resp ∧
          resp.status = o.status ∧
          getOrder s' oid = some { o with updated_at := now } ∧
          s'.order_items = s.order_items ∧
          s'.products = s.products) := by
  refine ⟨?_, ?_, ?_⟩
  · intro h; unfold update_order; rw [h]
  · intro o h st hst hne
    have h1 : s.orders.find? (fun o2 => o2.id == oid) = some o := h
    have ho : o.id = oid := by simpa using List.find?_some h1
    simp only [update_order, h, hst]
    rw [if_neg hne]
    refine ⟨_, _, rfl, rfl, ?_, rfl, rfl⟩
    show (s.orders.map (fun o2 => if o2.id == oid then
        ({ o with status := st, updated_at := now } : Order) else o2)).find?
        (fun o2 => o2.id == oid) = some ({ o with status := st, updated_at := now } : Order)
    rw [find?_map_pres _ _ (fun a => by cases hb : (a.id == oid) <;> simp [hb, ho]), h1]
    simp [ho]
  · intro o h hst
    have h1 : s.orders.find? (fun o2 => o2.id == oid) = some o := h
    have ho : o.id = oid := by simpa using List.find?_some h1
    simp only [update_order, h, hst, ite_true]
    refine ⟨_, _, rfl, rfl, ?_, rfl, rfl⟩
    show (s.orders.map (fun o2 => if o2.id == oid then
        ({ o with updated_at := now } : Order) else o2)).find?
        (fun o2 => o2.id == oid) = some ({ o with updated_at := now } : Order)
    rw [find?_map_pres _ _ (fun a => by cases hb : (a.id == oid) <;> simp [hb, ho]), h1]
    simp [ho]

/-- Witness for C7 at concrete inputs: updating the absent order 99 fails
with NotFound, and updating existing order 50 with the non-empty status
"shipped" replaces the status, refreshes updated_at and leaves items and
products untouched. -/
theorem update_order_spec_witness :
    (getOrder store3 99 = none ∧
      update_order store3 99 ⟨some "shipped"⟩ t1 = .err .notFoundOrder [] store3)
    ∧ (getOrder store3 50 = some ord1 ∧ ("shipped" : String) ≠ "" ∧
        ∃ s' resp, update_order store3 50 ⟨some "shipped"⟩ t1 = .ok [s'] s' resp ∧
          resp.status = "shipped" ∧
          getOrder s' 50 = some { ord1 with status := "shipped", updated_at := t1 } ∧
          s'.order_items = store3.order_items ∧
          s'.products = store3.products) :=
  ⟨⟨by decide, (update_order_spec store3 99 ⟨some "shipped"⟩ t1).1 (by decide)⟩,
   ⟨by decide, by decide,
    (update_order_spec store3 50 ⟨some "shipped"⟩ t1).2.1 ord1 (by decide) "shipped" rfl (by decide)⟩⟩

/-- Counterexample to C8 as stated: in `store4`, product 3 already holds the
empty-string barcode, yet updating product 2's barcode to "" succeeds
rather than failing with Conflict — Python's
`if product_up.barcode and ...` is falsy for the empty string, so the
uniqueness check is bypassed and the duplicate barcode is applied. -/
theorem update_product_empty_barcode_counterexample :
    (∃ q ∈ store4.products, q.barcode = "" ∧ q.id ≠ 2) ∧
    (update_product store4 2 upEmptyBarcode).isOk = true ∧
    (getProduct ((update_product store4 2 upEmptyBarcode).finalStore) 2).map (fun p => p.barcode)
      = some "" := by
  decide

/-- C8 (amended): update_product rejects with Conflict any update that sets
the barcode to a NON-EMPTY value already held by a different product
(leaving the store untouched), while an update that sets the barcode to the
product's own current barcode succeeds; the empty string bypasses the
uniqueness check.  create_product rejects with Conflict any barcode already
held by some product (no emptiness guard on the create path). -/
theorem product_barcode_uniqueness (s : Store) (pid : Nat) (up : ProductUpdate)
    (pin : ProductCreate) (now : DateTime) (fresh : Nat) :
    (∀ p, getProduct s pid = some p → ∀ b, up.barcode = some b → b ≠ "" → b ≠ p.barcode →
      (∃ q ∈ s.products, q.barcode = b ∧ q.id ≠ pid) →
      update_product s pid up = .err .conflictBarcode [] s)
    ∧ (∀ p, getProduct s pid = some p → up.barcode = some p.barcode →
        ∃ s', update_product s pid up = .ok [s'] s' (applyProductUpdate p up))
    ∧ ((∃ q ∈ s.products, q.barcode = pin.barcode) →
        create_product s pin now fresh = .err .conflictBarcode [] s) := by
  refine ⟨?_, ?_, ?_⟩
  · intro p hp b hb hne hown hex
    have hfind : (s.products.find? (fun q => q.barcode == b && q.id != pid)).isSome = true := by
      rw [List.find?_isSome]
      obtain ⟨q, hqmem, hqb, hqid⟩ := hex
      exact ⟨q, hqmem, by simp [hqb, hqid]⟩
    simp only [update_product, hp, hb]
    rw [if_pos (show b ≠ "" ∧ b ≠ p.barcode from ⟨hne, hown⟩), hfind]
    rfl
  · intro p hp hb
    refine ⟨{ s with products := s.products.map (fun q => if q.id == pid then applyProductUpdate p up else q) }, ?_⟩
    simp only [update_product, hp, hb]
    rw [if_neg (show ¬(p.barcode ≠ "" ∧ p.barcode ≠ p.barcode) from fun hcon => hcon.2 rfl)]
    rfl
  · intro hex
    have hfind : (s.products.find? (fun p => p.barcode == pin.barcode)).isSome = true := by
      rw [List.find?_isSome]
      obtain ⟨q, hqmem, hqb⟩ := hex
      exact ⟨q, hqmem, by simp [hqb]⟩
    cases hq : s.products.find? (fun p => p.barcode == pin.barcode) with
    | none => rw [hq] at hfind; cases hfind
    | some q => simp [create_product, hq]

/-- Witness for C8 (amended) at concrete inputs over `store4` (product 3
with barcode "", product 2 with barcode "b2"): updating product 3's barcode
to "b2" conflicts; updating product 2 to its own "b2" succeeds; creating a
product with barcode "b2" conflicts. -/
theorem product_barcode_uniqueness_witness :
    (getProduct store4 3 = some prodE ∧ ("b2" : String) ≠ "" ∧ ("b2" : String) ≠ prodE.barcode ∧
      (∃ q ∈ store4.products, q.barcode = "b2" ∧ q.id ≠ 3) ∧
      update_product store4 3 upB2 = .err .conflictBarcode [] store4)
    ∧ (getProduct store4 2 = some prod2 ∧ upB2.barcode = some prod2.barcode ∧
        ∃ s', update_product store4 2 upB2 = .ok [s'] s' (applyProductUpdate prod2 upB2))
    ∧ ((∃ q ∈ store4.products, q.barcode = pinB2.barcode) ∧
        create_product store4 pinB2 t0 100 = .err .conflictBarcode [] store4) :=
  ⟨⟨by decide, by decide, by decide, by decide,
    (product_barcode_uniqueness store4 3 upB2 pinB2 t0 100).1 prodE (by decide) "b2" rfl
      (by decide) (by decide) (by decide)⟩,
   ⟨by decide, by decide,
    (product_barcode_uniqueness store4 2 upB2 pinB2 t0 100).2.1 prod2 (by decide) (by decide)⟩,
   ⟨by decide,
    (product_barcode_uniqueness store4 3 upB2 pinB2 t0 100).2.2 (by decide)⟩⟩

/-- The modelled hash is injective, so a changed password changes the hash. -/
theorem get_password_hash_inj {a b : String} (h : get_password_hash a = get_password_hash b) :
    a = b := by
  unfold get_password_hash at h
  have hd := congrArg String.data h
  rw [String.data_append, String.data_append] at hd
  exact String.ext (List.append_cancel_left hd)

/-- C9: change-own-password fails (leaving the stored hash unchanged) when
the supplied current password does not verify against the stored credential,
fails when the new password equals the current one, and otherwise succeeds
with the user's stored hash replaced by the hash of the new password — a
value different from the previous hash. -/
theorem update_password_me_spec (s : Store) (u : User) (body : UpdatePassword)
    (hu : getUser s u.id = some u) :
    (verify_password body.current_password u.hashed_password = false →
      update_password_me s u body = .err .incorrectPassword [] s)
    ∧ (verify_password body.current_password u.hashed_password = true →
       body.current_password = body.new_password →
        update_password_me s u body = .err .newPasswordEqualsCurrent [] s)
    ∧ (verify_password body.current_password u.hashed_password = true →
       body.current_password ≠ body.new_password →
        ∃ s', update_password_me s u body = .ok [s'] s' "password updated sucessfully" ∧
          getUser s' u.id = some { u with hashed_password := get_password_hash body.new_password } ∧
          get_password_hash body.new_password ≠ u.hashed_password) := by
  have hu1 : s.users.find? (fun w => w.id == u.id) = some u := hu
  refine ⟨?_, ?_, ?_⟩
  · intro hv
    simp [update_password_me, hv]
  · intro hv he
    simp only [update_password_me]
    rw [if_neg (show ¬¬(verify_password body.current_password u.hashed_password = true) from
      fun hcon => hcon hv), if_pos he]
  · intro hv hne
    refine ⟨{ s with users := s.users.map (fun w => if w.id == u.id then ({ u with hashed_password := get_password_hash body.new_password } : User) else w) }, ?_, ?_, ?_⟩
    · simp only [update_password_me]
      rw [if_neg (show ¬¬(verify_password body.current_password u.hashed_password = true) from
        fun hcon => hcon hv), if_neg hne]
    · show (s.users.map (fun w => if w.id == u.id then
          ({ u with hashed_password := get_password_hash body.new_password } : User) else w)).find?
          (fun w => w.id == u.id) = _
      rw [find?_map_pres _ _ (fun a => by cases hb : (a.id == u.id) <;> simp [hb]), hu1]
      simp
    · have hvv : get_password_hash body.current_password = u.hashed_password := by
        simpa [verify_password] using hv
      intro hcon
      exact hne (get_password_hash_inj (hvv.symm ▸ hcon : get_password_hash body.new_password
        = get_password_hash body.current_password)).symm

/-- Witness for C9 at concrete inputs over `store5`: the client user with
stored hash of "clientpass" — a wrong current password fails, an equal
current/new pair fails, and a correct distinct pair succeeds and replaces
the stored hash. -/
theorem update_password_me_spec_witness :
    (getUser store5 11 = some userClient ∧
      verify_password "wrongpass1" userClient.hashed_password = false ∧
      update_password_me store5 userClient ⟨"wrongpass1", "newpass11"⟩ =
        .err .incorrectPassword [] store5)
    ∧ (verify_password "clientpass" userClient.hashed_password = true ∧
        update_password_me store5 userClient ⟨"clientpass", "clientpass"⟩ =
          .err .newPasswordEqualsCurrent [] store5)
    ∧ (("clientpass" : String) ≠ "newpass11" ∧
        ∃ s', update_password_me store5 userClient ⟨"clientpass", "newpass11"⟩ =
            .ok [s'] s' "password updated sucessfully" ∧
          getUser s' 11 = some { userClient with hashed_password := get_password_hash "newpass11" } ∧
          get_password_hash "newpass11" ≠ userClient.hashed_password) :=
  ⟨⟨by decide, by decide,
    (update_password_me_spec store5 userClient ⟨"wrongpass1", "newpass11"⟩ (by decide)).1 (by decide)⟩,
   ⟨by decide,
    (update_password_me_spec store5 userClient ⟨"clientpass", "clientpass"⟩ (by decide)).2.1
      (by decide) rfl⟩,
   ⟨by decide,
    (update_password_me_spec store5 userClient ⟨"clientpass", "newpass11"⟩ (by decide)).2.2
      (by decide) (by decide)⟩⟩

/-- C10: when the requested user id is absent from the store,
read_user_by_id never yields NotFound: a non-admin caller gets Forbidden and
an admin caller gets an empty (`none`) result. -/
theorem read_user_by_id_absent (s : Store) (uid : Nat) (cu : User)
    (habs : getUser s uid = none) :
    (cu.role ≠ UserRole.ADMIN → read_user_by_id s uid cu = .error .forbidden)
    ∧ (cu.role = UserRole.ADMIN → read_user_by_id s uid cu = .ok none) := by
  have habs1 : s.users.find? (fun w => w.id == uid) = none := habs
  constructor
  · intro hrole
    simp [read_user_by_id, habs1, hrole]
  · intro hrole
    simp [read_user_by_id, habs1, hrole]

/-- Witness for C10 at concrete inputs: user id 99 is absent from `store5`;
the non-admin caller gets Forbidden, the admin caller gets an empty result. -/
theorem read_user_by_id_absent_witness :
    (getUser store5 99 = none ∧ userClient.role ≠ UserRole.ADMIN ∧
      read_user_by_id store5 99 userClient = .error .forbidden)
    ∧ (userAdmin.role = UserRole.ADMIN ∧
        read_user_by_id store5 99 userAdmin = .ok none) :=
  ⟨⟨by decide, by decide,
    (read_user_by_id_absent store5 99 userClient (by decide)).1 (by decide)⟩,
   ⟨by decide,
    (read_user_by_id_absent store5 99 userAdmin (by decide)).2 rfl⟩⟩

end LuEstilo
